import Mathlib

/-!
Shallow embedding of the BlueLooseGeek premium-reconciliation pipeline.

The embedding follows the Python sources:
* src/app.py — validate_input_file, compare_files (outer merge, status/issue
  loop, unique-id lambda, column reorder);
* src/main.py — normalize_name, preprocess_and_match_names, generate_unique_id;
* src/eenav_cleaner.py — clean_eenav_file (row-wise cost summation);
* src/principal_cleaner.py — clean_principal_file (member-name split).

Premium cells are modelled as `Option ℚ` (a parsed numeric value or a
missing/NaN cell); name cells as `Option String`.  The sha256 function below
is the FIPS 180-4 algorithm computed over `Nat` words reduced modulo 2^32,
embedding Python's `hashlib.sha256(...).hexdigest()`.
-/

/-- Reduce a number to a 32-bit word, as every addition inside sha256 is. -/
def w32 (n : Nat) : Nat := n % 4294967296

/-- Rotate a 32-bit word right by `n` bits. -/
def rotr32 (n x : Nat) : Nat := w32 ((x >>> n) ||| (x <<< (32 - n)))

/-- Bitwise complement within 32 bits. -/
def not32 (x : Nat) : Nat := x ^^^ 4294967295

/-- The sha256 round constants. -/
def shaK : List Nat :=
  [1116352408, 1899447441, 3049323471, 3921009573, 961987163,
   1508970993, 2453635748, 2870763221, 3624381080, 310598401,
   607225278, 1426881987, 1925078388, 2162078206, 2614888103,
   3248222580, 3835390401, 4022224774, 264347078, 604807628,
   770255983, 1249150122, 1555081692, 1996064986, 2554220882,
   2821834349, 2952996808, 3210313671, 3336571891, 3584528711,
   113926993, 338241895, 666307205, 773529912, 1294757372,
   1396182291, 1695183700, 1986661051, 2177026350, 2456956037,
   2730485921, 2820302411, 3259730800, 3345764771, 3516065817,
   3600352804, 4094571909, 275423344, 430227734, 506948616,
   659060556, 883997877, 958139571, 1322822218, 1537002063,
   1747873779, 1955562222, 2024104815, 2227730452, 2361852424,
   2428436474, 2756734187, 3204031479, 3329325298]

/-- The eight 32-bit chaining words of sha256. -/
structure Sha256State where
  a : Nat
  b : Nat
  c : Nat
  d : Nat
  e : Nat
  f : Nat
  g : Nat
  h : Nat
deriving DecidableEq, Repr

/-- The sha256 initial hash value. -/
def shaInit : Sha256State :=
  ⟨1779033703, 3144134277, 1013904242, 2773480762, 1359893119, 2600822924, 528734635, 1541459225⟩

/-- Big sigma 0. -/
def bsig0 (x : Nat) : Nat := (rotr32 2 x) ^^^ (rotr32 13 x) ^^^ (rotr32 22 x)

/-- Big sigma 1. -/
def bsig1 (x : Nat) : Nat := (rotr32 6 x) ^^^ (rotr32 11 x) ^^^ (rotr32 25 x)

/-- Small sigma 0. -/
def ssig0 (x : Nat) : Nat := (rotr32 7 x) ^^^ (rotr32 18 x) ^^^ (x >>> 3)

/-- Small sigma 1. -/
def ssig1 (x : Nat) : Nat := (rotr32 17 x) ^^^ (rotr32 19 x) ^^^ (x >>> 10)

/-- One sha256 compression round, consuming one `(k, w)` pair. -/
def shaRound (st : Sha256State) (kw : Nat × Nat) : Sha256State :=
  let t1 := w32 (st.h + bsig1 st.e + ((st.e &&& st.f) ^^^ (not32 st.e &&& st.g)) + kw.1 + kw.2)
  let t2 := w32 (bsig0 st.a + ((st.a &&& st.b) ^^^ (st.a &&& st.c) ^^^ (st.b &&& st.c)))
  ⟨w32 (t1 + t2), st.a, st.b, st.c, w32 (st.d + t1), st.e, st.f, st.g⟩

/-- Read the big-endian 32-bit word number `t` out of a 64-byte block. -/
def word32At (block : List Nat) (t : Nat) : Nat :=
  ((block.getD (4 * t) 0) <<< 24) + ((block.getD (4 * t + 1) 0) <<< 16) +
    ((block.getD (4 * t + 2) 0) <<< 8) + block.getD (4 * t + 3) 0

/-- The 64-entry message schedule of one block. -/
def msgSchedule (block : List Nat) : List Nat :=
  let w0 := (List.range 16).map (word32At block)
  (List.range 48).foldl
    (fun w _ =>
      let n := w.length
      w ++ [w32 (ssig1 (w.getD (n - 2) 0) + w.getD (n - 7) 0 +
                 ssig0 (w.getD (n - 15) 0) + w.getD (n - 16) 0)])
    w0

/-- Componentwise 32-bit addition of two chaining states. -/
def addStates (x y : Sha256State) : Sha256State :=
  ⟨w32 (x.a + y.a), w32 (x.b + y.b), w32 (x.c + y.c), w32 (x.d + y.d),
   w32 (x.e + y.e), w32 (x.f + y.f), w32 (x.g + y.g), w32 (x.h + y.h)⟩

/-- Compress one 64-byte block into the chaining state. -/
def compressBlock (st : Sha256State) (block : List Nat) : Sha256State :=
  addStates st ((shaK.zip (msgSchedule block)).foldl shaRound st)

/-- Append the sha256 padding: a 0x80 byte, zeros, and the 64-bit bit length. -/
def padMessage (msg : List Nat) : List Nat :=
  let padLen := (119 - msg.length % 64) % 64
  msg ++ [128] ++ List.replicate padLen 0 ++
    (List.range 8).map (fun i => (8 * msg.length >>> (8 * (7 - i))) % 256)

/-- Cut a padded message into 64-byte blocks; the fuel argument bounds the
number of blocks and is structurally consumed. -/
def toBlocksAux : Nat → List Nat → List (List Nat)
  | 0, _ => []
  | _ + 1, [] => []
  | fuel + 1, x :: xs => ((x :: xs).take 64) :: toBlocksAux fuel ((x :: xs).drop 64)

/-- Cut a padded message into 64-byte blocks. -/
def toBlocks (l : List Nat) : List (List Nat) := toBlocksAux l.length l

/-- The sha256 chaining state after absorbing a whole byte string. -/
def sha256Hash (msg : List Nat) : Sha256State :=
  (toBlocks (padMessage msg)).foldl compressBlock shaInit

/-- Lowercase hex digit, as Python's hexdigest prints. -/
def hexDigitChar (n : Nat) : Char := if n < 10 then Char.ofNat (48 + n) else Char.ofNat (87 + n)

/-- The eight hex characters of one 32-bit word, most significant first. -/
def wordHexChars (w : Nat) : List Char :=
  (List.range 8).map (fun i => hexDigitChar ((w >>> (28 - 4 * i)) % 16))

/-- The 64 hexdigest characters of a final chaining state. -/
def digestChars (st : Sha256State) : List Char :=
  wordHexChars st.a ++ wordHexChars st.b ++ wordHexChars st.c ++ wordHexChars st.d ++
    wordHexChars st.e ++ wordHexChars st.f ++ wordHexChars st.g ++ wordHexChars st.h

/-- UTF-8 encoding of one character, as Python's str.encode produces. -/
def utf8EncodeCharNat (c : Char) : List Nat :=
  let n := c.toNat
  if n < 128 then [n]
  else if n < 2048 then [192 + n / 64, 128 + n % 64]
  else if n < 65536 then [224 + n / 4096, 128 + n / 64 % 64, 128 + n % 64]
  else [240 + n / 262144, 128 + n / 4096 % 64, 128 + n / 64 % 64, 128 + n % 64]

/-- UTF-8 byte string of a Lean string, matching Python's str.encode. -/
def utf8Bytes (s : String) : List Nat := s.data.flatMap utf8EncodeCharNat

/-- hashlib.sha256(s.encode()).hexdigest() as its list of 64 characters. -/
def sha256HexChars (s : String) : List Char := digestChars (sha256Hash (utf8Bytes s))

/-- generate_unique_id from src/main.py: the first 8 hexdigest characters of the
sha256 of the full name. -/
def generate_unique_id (full_name : String) : String :=
  String.mk ((sha256HexChars full_name).take 8)

set_option maxRecDepth 4096 in
/-- Sanity anchor: the embedded sha256 reproduces the FIPS 180-4 hexdigest of
the empty message, so the identifier embedding hashes exactly as hashlib
does. -/
theorem sha256_empty_test_vector : generate_unique_id "" = "e3b0c442" := by decide

/-- One row of the EE Nav table as compare_files sees it: the two merge-key
name columns and the TOTAL PREMIUM column.  A `none` cell is a NaN. -/
structure EeRow where
  firstName : Option String
  lastName : Option String
  totalPremium : Option ℚ
deriving DecidableEq, Repr

/-- One row of the Principal table as compare_files sees it. -/
structure PrincipalRow where
  firstName : Option String
  lastName : Option String
  principalPremium : Option ℚ
deriving DecidableEq, Repr

/-- One row of the merged frame, before the status loop runs. -/
structure MergedRow where
  firstName : Option String
  lastName : Option String
  totalPremium : Option ℚ
  principalPremium : Option ℚ
deriving DecidableEq, Repr

/-- One output row of compare_files, in its final column order. -/
structure ResultRow where
  uniqueId : Option String
  firstName : Option String
  lastName : Option String
  totalPremium : Option ℚ
  principalPremium : Option ℚ
  status : String
  issue : Option String
deriving DecidableEq, Repr

/-- Merge-key equality of pd.merge on FIRST NAME and LAST NAME.  pandas joins
NaN keys to each other, so missing cells compare equal here as well. -/
def keyMatches (e : EeRow) (p : PrincipalRow) : Bool :=
  e.firstName == p.firstName && e.lastName == p.lastName

/-- pd.merge(df_ee, df_principal, on=names, how=outer) of src/app.py: every EE
row is paired with each key-matching Principal row (kept alone with a NaN
principal premium when none matches), and Principal rows with no EE partner
are appended with a NaN EE premium.  The emitted row order is modelled
left-major; none of the properties proved below depends on the order. -/
def outerMerge (ee : List EeRow) (pr : List PrincipalRow) : List MergedRow :=
  (ee.flatMap fun e =>
    let ms := pr.filter (keyMatches e)
    if ms.isEmpty then [⟨e.firstName, e.lastName, e.totalPremium, none⟩]
    else ms.map fun p => ⟨e.firstName, e.lastName, e.totalPremium, p.principalPremium⟩) ++
  ((pr.filter fun p => ee.all fun e => ! keyMatches e p).map fun p =>
    ⟨p.firstName, p.lastName, none, p.principalPremium⟩)

/-- The status/issue assignment of the row loop in compare_files
(src/app.py lines 48-60), in its branch order: both premiums NaN, then the
EE premium NaN, then the Principal premium NaN, then raw inequality; a row
hit by no branch keeps the initial Valid status and empty issue. -/
def classifyRow (tp pp : Option ℚ) : String × Option String :=
  match tp, pp with
  | none, none => ("Invalid", some "Missing Both Premiums")
  | none, some _ => ("Invalid", some "Missing EE Nav Premium")
  | some _, none => ("Invalid", some "Missing Principal Premium")
  | some a, some b =>
    if a ≠ b then ("Invalid", some "Premium Mismatch") else ("Valid", none)

/-- The UNIQUE ID lambda of compare_files (src/app.py lines 63-67): the first
8 hexdigest characters of the sha256 of the concatenated names when both are
present, and an explicit NaN otherwise. -/
def uniqueIdOf (firstName lastName : Option String) : Option String :=
  match firstName, lastName with
  | some f, some l => some (String.mk ((sha256HexChars (f ++ l)).take 8))
  | _, _ => none

/-- compare_files from src/app.py: outer-merge the two tables, run the
status/issue loop on every merged row, attach the unique ids, and emit the
columns in their final order. -/
def compare_files (ee : List EeRow) (pr : List PrincipalRow) : List ResultRow :=
  (outerMerge ee pr).map fun m =>
    let si := classifyRow m.totalPremium m.principalPremium
    ⟨uniqueIdOf m.firstName m.lastName, m.firstName, m.lastName,
     m.totalPremium, m.principalPremium, si.1, si.2⟩

/-- Whitespace recognized by Python's str.strip and str.split and by the regex
class backslash-s: space, tab, newline, vertical tab, form feed, carriage
return. -/
def isPySpace (c : Char) : Bool :=
  c.toNat = 32 || c.toNat = 9 || c.toNat = 10 || c.toNat = 11 || c.toNat = 12 || c.toNat = 13

/-- Python's str.strip() on a character list: drop whitespace from both ends. -/
def pyStripChars (l : List Char) : List Char :=
  ((l.dropWhile isPySpace).reverse.dropWhile isPySpace).reverse

/-- Column-name normalization of src/app.py: strip surrounding whitespace and
uppercase.  The case map is the ASCII one; the column names compared by the
sources are ASCII. -/
def normalizeColumn (s : String) : String :=
  String.mk ((pyStripChars s.data).map Char.toUpper)

/-- validate_input_file from src/app.py: normalize the column names of the
frame, collect the required columns not among them, and raise a KeyError
naming the file and exactly the missing columns when any is absent. -/
def validate_input_file (columns required : List String) (fileName : String) :
    Except (String × List String) Unit :=
  let cols := columns.map normalizeColumn
  let missing := required.filter fun c => ! cols.contains c
  if missing.isEmpty then .ok () else .error (fileName, missing)

/-- The EE Nav required columns of src/app.py's main. -/
def requiredEeColumns : List String := ["FIRST NAME", "LAST NAME", "TOTAL PREMIUM"]

/-- The Principal required columns of src/app.py's main. -/
def requiredPrincipalColumns : List String := ["FIRST NAME", "LAST NAME", "PRINCIPAL PREMIUM"]

/-- pandas DataFrame.sum(axis=1) over one row's selected cells: NaN cells are
skipped, and an all-NaN selection sums to zero. -/
def rowSumSkipNa (cells : List (Option ℚ)) : ℚ := (cells.filterMap id).sum

/-- One raw EE Nav row as clean_eenav_file reads it: the name columns and the
three itemized cost columns it selects. -/
structure RawEenavRow where
  lastName : Option String
  firstName : Option String
  dentalCost : Option ℚ
  visionCost : Option ℚ
  volLifeCost : Option ℚ
deriving DecidableEq, Repr

/-- One cleaned EE Nav row: the kept columns Last Name, First Name, Total
Premium. -/
structure CleanEenavRow where
  lastName : Option String
  firstName : Option String
  totalPremium : ℚ
deriving DecidableEq, Repr

/-- clean_eenav_file from src/eenav_cleaner.py: Total Premium is the row-wise
pandas sum of the Dental, Vision and Voluntary Life cost cells, and only the
name and total columns are kept. -/
def clean_eenav_file (rows : List RawEenavRow) : List CleanEenavRow :=
  rows.map fun r =>
    ⟨r.lastName, r.firstName, rowSumSkipNa [r.dentalCost, r.visionCost, r.volLifeCost]⟩

/-- One raw Principal row as clean_principal_file reads it: the combined
Member Name column and the Total Premium column. -/
structure RawPrincipalRow where
  memberName : String
  totalPremium : Option ℚ
deriving DecidableEq, Repr

/-- One cleaned Principal row: the kept columns Last Name, First Name, Total
Premium; a name cell can be NaN. -/
structure CleanPrincipalRow where
  lastName : Option String
  firstName : Option String
  totalPremium : Option ℚ
deriving DecidableEq, Repr

/-- Python's str.split(sep) on character lists, scanning left to right for
non-overlapping separator occurrences; the fuel argument bounds the scan and
is structurally consumed. -/
def splitSepAux (sep : List Char) : Nat → List Char → List (List Char)
  | _, [] => [[]]
  | 0, l => [l]
  | fuel + 1, c :: rest =>
    if sep ≠ [] && sep.isPrefixOf (c :: rest) then
      [] :: splitSepAux sep fuel ((c :: rest).drop sep.length)
    else
      match splitSepAux sep fuel rest with
      | [] => [[c]]
      | w :: ws => (c :: w) :: ws

/-- Python's str.split(sep). -/
def splitSep (sep l : List Char) : List (List Char) := splitSepAux sep l.length l

/-- The cell values of the Member Name str.split(", ", expand=True) for one
row: every occurrence of the separator splits. -/
def splitMemberName (s : String) : List String :=
  (splitSep [',', ' '] s.data).map String.mk

/-- clean_principal_file from src/principal_cleaner.py.  The expand=True split
spreads each member name over as many columns as the longest split in the
table, padding shorter rows with NaN; assigning those columns to exactly the
two keys Last Name and First Name raises a ValueError (modelled as `none`)
unless that width is two. -/
def clean_principal_file (rows : List RawPrincipalRow) : Option (List CleanPrincipalRow) :=
  if ((rows.map fun r => (splitMemberName r.memberName).length).foldl max 0) = 2 then
    some (rows.map fun r =>
      ⟨(splitMemberName r.memberName)[0]?, (splitMemberName r.memberName)[1]?, r.totalPremium⟩)
  else none

/-- ASCII letter test of the regex class a-zA-Z in normalize_name. -/
def isAsciiLetter (c : Char) : Bool :=
  (65 ≤ c.toNat && c.toNat ≤ 90) || (97 ≤ c.toNat && c.toNat ≤ 122)

/-- Modelled from the spec: the NFKD-then-encode("ascii", "ignore") fold of
normalize_name uses the unicodedata tables, which are not in src/; the spec
calls it a Unicode-fold to ASCII.  It is modelled as keeping ASCII characters
and dropping the rest, which is exact on ASCII text (all names the theorems
below feed it are ASCII). -/
def asciiFold (s : String) : String := String.mk (s.data.filter fun c => c.toNat < 128)

/-- Python's str.split() with no separator on a character list: cut at every
whitespace character; the empty pieces adjacent separators produce are
discarded by the caller. -/
def splitWsChars : List Char → List (List Char)
  | [] => [[]]
  | c :: rest =>
    if isPySpace c then [] :: splitWsChars rest
    else
      match splitWsChars rest with
      | [] => [[c]]
      | w :: ws => (c :: w) :: ws

/-- Join word character lists with single spaces, as " ".join does. -/
def joinSpace : List (List Char) → List Char
  | [] => []
  | w :: ws => w ++ ws.flatMap fun v => ' ' :: v

/-- normalize_name from src/main.py: fold to ASCII, drop characters that are
neither letters nor whitespace, lowercase, and rejoin the whitespace-split
words with single spaces. -/
def normalize_name (name : String) : String :=
  let kept := (asciiFold name).data.filter fun c => isAsciiLetter c || isPySpace c
  let lowered := kept.map Char.toLower
  String.mk (joinSpace ((splitWsChars lowered).filter fun w => w ≠ []))

/-- One row of a table entering preprocess_and_match_names: its First Name and
Last Name cells. -/
structure NameRow where
  firstName : String
  lastName : String
deriving DecidableEq, Repr

/-- fuzzywuzzy's process.extractOne over the choices src/main.py line 133
passes it: the pandas Series of normalized df2 names.  A Series is dict-like
— it has .items() — so the library's extractWithoutOrder iterates its
(key, choice) pairs and yields (choice, score, key) triples, and extractOne
returns the highest-scoring triple (the first among ties, as Python's max
keeps the first maximum), or None when there are no choices.  The similarity
scorer itself lives in the fuzzywuzzy library, not in src/, so the function
is parameterized by it. -/
def extractOne (score : String → String → Nat) (query : String)
    (choices : List (Nat × String)) : Option (String × Nat × Nat) :=
  choices.foldl
    (fun best kc =>
      match best with
      | none => some (kc.2, score query kc.2, kc.1)
      | some (b, s, k) =>
        if score query kc.2 > s then some (kc.2, score query kc.2, kc.1) else some (b, s, k))
    none

/-- Modelled from the spec: a fuzzywuzzy similarity scorer on the 0-100 scale
(the library is not in src/); identical strings score 100, which is all the
concrete runs below need. -/
def specSimilarity (a b : String) : Nat := if a = b then 100 else 0

/-- The normalized full-name column built by preprocess_and_match_names. -/
def normalizedNames (df : List NameRow) : List String :=
  df.map fun r => normalize_name (r.firstName ++ " " ++ r.lastName)

/-- The two-variable assignment of src/main.py line 133.  For Series choices
the right-hand side is a (match, score, key) triple — three values, never two
— so the unpack raises ValueError; when df2 is empty extractOne returns None
and unpacking it raises TypeError.  The error strings are CPython's. -/
def unpackExtractOne : Option (String × Nat × Nat) → Except String (String × Nat)
  | none => .error "TypeError: cannot unpack non-iterable NoneType object"
  | some _ => .error "ValueError: too many values to unpack (expected 2)"

/-- One iteration of the matching loop of preprocess_and_match_names
(src/main.py lines 132-136): propagate an already-raised error; otherwise run
line 133's unpack of the extractOne result and, below it, the threshold test
and the append of (i, first df2 key holding the best name), with the
IndexError that an empty .index would raise.  The unpack raises on every
iteration it reaches, so the code below it is unreachable. -/
def fuzzyStep (score : String → String → Nat) (threshold : Nat)
    (df1 df2 : List NameRow) (acc : Except String (List (Nat × Nat))) (i : Nat) :
    Except String (List (Nat × Nat)) :=
  match acc with
  | .error e => .error e
  | .ok pairs =>
    match unpackExtractOne (extractOne score ((normalizedNames df1).getD i "")
        (normalizedNames df2).enum) with
    | .error e => .error e
    | .ok (bm, sc) =>
      if threshold ≤ sc then
        match (normalizedNames df2).enum.find? (fun kn => kn.2 == bm) with
        | some kn => .ok (pairs ++ [(i, kn.1)])
        | none => .error "IndexError: index 0 is out of bounds for axis 0 with size 0"
      else .ok pairs

/-- The matching loop of preprocess_and_match_names (src/main.py lines
131-143), error path included: for each df1 row in order, score its
normalized full name against the whole df2 normalized-name Series and unpack
the extractOne result into two variables.  The unpack raises on the first
iteration — ValueError for a nonempty df2, TypeError for an empty one — so
the loop completes, recording nothing, only when df1 is empty. -/
def fuzzyMatchPairs (score : String → String → Nat) (threshold : Nat)
    (df1 df2 : List NameRow) : Except String (List (Nat × Nat)) :=
  (List.range (normalizedNames df1).length).foldl
    (fuzzyStep score threshold df1 df2) (.ok [])



/-! Helper lemmas shared by the claim theorems. -/

/-- Every output row of compare_files carries the status, issue and unique id
computed from its own premium and name cells. -/
theorem compare_files_row_spec {ee : List EeRow} {pr : List PrincipalRow} {r : ResultRow}
    (hr : r ∈ compare_files ee pr) :
    r.status = (classifyRow r.totalPremium r.principalPremium).1 ∧
    r.issue = (classifyRow r.totalPremium r.principalPremium).2 ∧
    r.uniqueId = uniqueIdOf r.firstName r.lastName := by
  unfold compare_files at hr
  rcases List.mem_map.1 hr with ⟨m, _, rfl⟩
  exact ⟨rfl, rfl, rfl⟩

/-- The hexdigest of any input has 64 characters. -/
theorem sha256HexChars_length (s : String) : (sha256HexChars s).length = 64 := by
  unfold sha256HexChars digestChars wordHexChars
  simp

/-- The pandas row sum of the three cost cells equals the sum that treats a
missing cell as zero. -/
theorem rowSumSkipNa_three (d v l : Option ℚ) :
    rowSumSkipNa [d, v, l] = d.getD 0 + v.getD 0 + l.getD 0 := by
  cases d <;> cases v <;> cases l <;> simp [rowSumSkipNa, add_assoc]

/-! Claim theorems. -/

/-- C1: every merged row is classified by the decision table in priority
order: both premiums absent gives Invalid/Missing Both Premiums; the EE Nav
(HR) premium absent with the Principal (carrier) premium present gives
Invalid/Missing EE Nav Premium; the Principal premium absent with the EE Nav
premium present gives Invalid/Missing Principal Premium; both present but
unequal gives Invalid/Premium Mismatch; otherwise Valid with no issue — and
Valid rows always carry two present premiums whose difference is within the
0.01 tolerance. -/
theorem classifier_decision_table (ee : List EeRow) (pr : List PrincipalRow)
    (r : ResultRow) (hr : r ∈ compare_files ee pr) :
    (r.totalPremium = none ∧ r.principalPremium = none →
      r.status = "Invalid" ∧ r.issue = some "Missing Both Premiums") ∧
    (∀ b : ℚ, r.totalPremium = none → r.principalPremium = some b →
      r.status = "Invalid" ∧ r.issue = some "Missing EE Nav Premium") ∧
    (∀ a : ℚ, r.totalPremium = some a → r.principalPremium = none →
      r.status = "Invalid" ∧ r.issue = some "Missing Principal Premium") ∧
    (∀ a b : ℚ, r.totalPremium = some a → r.principalPremium = some b → a ≠ b →
      r.status = "Invalid" ∧ r.issue = some "Premium Mismatch") ∧
    (∀ a b : ℚ, r.totalPremium = some a → r.principalPremium = some b → a = b →
      r.status = "Valid" ∧ r.issue = none) ∧
    (r.status = "Valid" →
      ∃ a b : ℚ, r.totalPremium = some a ∧ r.principalPremium = some b ∧ |a - b| < 1 / 100) := by
  obtain ⟨hs, hi, -⟩ := compare_files_row_spec hr
  refine ⟨?_, ?_, ?_, ?_, ?_, ?_⟩
  · rintro ⟨h1, h2⟩
    rw [hs, hi, h1, h2]
    exact ⟨rfl, rfl⟩
  · intro b h1 h2
    rw [hs, hi, h1, h2]
    exact ⟨rfl, rfl⟩
  · intro a h1 h2
    rw [hs, hi, h1, h2]
    exact ⟨rfl, rfl⟩
  · intro a b h1 h2 hne
    rw [hs, hi, h1, h2]
    simp [classifyRow, hne]
  · intro a b h1 h2 heq
    rw [hs, hi, h1, h2]
    simp [classifyRow, heq]
  · intro hv
    rw [hs] at hv
    cases h1 : r.totalPremium with
    | none =>
      cases h2 : r.principalPremium with
      | none => rw [h1, h2] at hv; simp [classifyRow] at hv
      | some b => rw [h1, h2] at hv; simp [classifyRow] at hv
    | some a =>
      cases h2 : r.principalPremium with
      | none => rw [h1, h2] at hv; simp [classifyRow] at hv
      | some b =>
        rw [h1, h2] at hv
        by_cases heq : a = b
        · subst heq
          exact ⟨a, a, rfl, rfl, by simp⟩
        · simp [classifyRow, heq] at hv

/-- Witness for C1: a one-row run with the Principal premium missing is
classified Invalid/Missing Principal Premium. -/
theorem classifier_decision_table_witness :
    (⟨none, none, some "DOE", some 5, none, "Invalid",
        some "Missing Principal Premium"⟩ : ResultRow).status = "Invalid" ∧
    (⟨none, none, some "DOE", some 5, none, "Invalid",
        some "Missing Principal Premium"⟩ : ResultRow).issue =
      some "Missing Principal Premium" :=
  (classifier_decision_table [⟨none, some "DOE", some 5⟩] [] _ (by decide)).2.2.1 5 rfl rfl

/-- C2 counterexample: two premiums differing by 1/200, less than the claimed
0.01 tolerance, are classified Invalid/Premium Mismatch, not Valid: the
comparison in src/app.py line 58 is raw inequality. -/
theorem premium_tolerance_counterexample :
    ((compare_files [⟨none, none, some 100⟩] [⟨none, none, some (mkRat 20001 200)⟩]).map
      fun r => (r.status, r.issue)) = [("Invalid", some "Premium Mismatch")] ∧
    |(100 : ℚ) - mkRat 20001 200| < mkRat 1 100 := by
  refine ⟨by decide, ?_⟩
  rw [Rat.mkRat_eq_div, Rat.mkRat_eq_div, abs_sub_lt_iff]
  constructor <;> norm_num

/-- C2 amended: premium equality in the classifier is raw, not
tolerance-based: a matched pair with both premiums present is classified
Valid exactly when the premiums are equal, and any nonzero difference — even
one smaller than 0.01 — is classified Invalid with issue Premium Mismatch. -/
theorem premium_equality_raw (ee : List EeRow) (pr : List PrincipalRow)
    (r : ResultRow) (hr : r ∈ compare_files ee pr)
    (a b : ℚ) (ha : r.totalPremium = some a) (hb : r.principalPremium = some b) :
    (r.status = "Valid" ↔ a = b) ∧
    (a ≠ b → r.status = "Invalid" ∧ r.issue = some "Premium Mismatch") := by
  obtain ⟨hs, hi, -⟩ := compare_files_row_spec hr
  rw [ha, hb] at hs hi
  by_cases heq : a = b
  · subst heq
    simp [classifyRow] at hs hi
    refine ⟨by simp [hs], fun h => absurd rfl h⟩
  · simp [classifyRow, heq] at hs hi
    exact ⟨by simp [hs, heq], fun _ => ⟨hs, hi⟩⟩

/-- Witness for C2's amended theorem: a one-row run with equal premiums on
both sides is classified Valid. -/
theorem premium_equality_raw_witness :
    (⟨none, none, none, some 7, some 7, "Valid", none⟩ : ResultRow).status = "Valid" :=
  (premium_equality_raw [⟨none, none, some 7⟩] [⟨none, none, some 7⟩] _
    (by decide) 7 7 rfl rfl).1.mpr rfl

/-- C10: every output row's STATUS is Valid or Invalid, its ISSUE is empty
exactly when the STATUS is Valid, and every Invalid row carries one of the
four issue codes. -/
theorem status_issue_invariant (ee : List EeRow) (pr : List PrincipalRow)
    (r : ResultRow) (hr : r ∈ compare_files ee pr) :
    (r.status = "Valid" ∨ r.status = "Invalid") ∧
    (r.issue = none ↔ r.status = "Valid") ∧
    (r.status = "Invalid" →
      r.issue = some "Missing Both Premiums" ∨ r.issue = some "Missing EE Nav Premium" ∨
      r.issue = some "Missing Principal Premium" ∨ r.issue = some "Premium Mismatch") := by
  obtain ⟨hs, hi, -⟩ := compare_files_row_spec hr
  cases h1 : r.totalPremium <;> cases h2 : r.principalPremium <;> rw [h1, h2] at hs hi
  · exact ⟨Or.inr hs, by simp [hs, hi, classifyRow], fun _ => by simp [hi, classifyRow]⟩
  · exact ⟨Or.inr hs, by simp [hs, hi, classifyRow], fun _ => by simp [hi, classifyRow]⟩
  · exact ⟨Or.inr hs, by simp [hs, hi, classifyRow], fun _ => by simp [hi, classifyRow]⟩
  · rename_i a b
    by_cases heq : a = b
    · subst heq
      simp [classifyRow] at hs hi
      exact ⟨Or.inl hs, by simp [hs, hi], fun hv => by simp [hs] at hv⟩
    · simp [classifyRow, heq] at hs hi
      exact ⟨Or.inr hs, by simp [hs, hi], fun _ => by simp [hi]⟩

/-- Witness for C10: a Principal-only row carries an Invalid status with the
Missing EE Nav Premium issue, one of the four codes. -/
theorem status_issue_invariant_witness :
    ((⟨none, none, some "X", none, some 3, "Invalid",
        some "Missing EE Nav Premium"⟩ : ResultRow).status = "Valid" ∨
     (⟨none, none, some "X", none, some 3, "Invalid",
        some "Missing EE Nav Premium"⟩ : ResultRow).status = "Invalid") :=
  (status_issue_invariant [] [⟨none, some "X", some 3⟩] _ (by decide)).1

/-- Every EE row reaches at least one merged row carrying its name and
premium cells. -/
theorem outerMerge_covers_ee {ee : List EeRow} (pr : List PrincipalRow)
    {e : EeRow} (he : e ∈ ee) :
    ∃ m ∈ outerMerge ee pr, m.firstName = e.firstName ∧ m.lastName = e.lastName ∧
      m.totalPremium = e.totalPremium := by
  unfold outerMerge
  rcases hms : pr.filter (keyMatches e) with - | ⟨p, ps⟩
  · refine ⟨⟨e.firstName, e.lastName, e.totalPremium, none⟩, ?_, rfl, rfl, rfl⟩
    refine List.mem_append_left _ (List.mem_flatMap.2 ⟨e, he, ?_⟩)
    simp [hms]
  · refine ⟨⟨e.firstName, e.lastName, e.totalPremium, p.principalPremium⟩, ?_, rfl, rfl, rfl⟩
    refine List.mem_append_left _ (List.mem_flatMap.2 ⟨e, he, ?_⟩)
    simp [hms]

/-- Every Principal row reaches at least one merged row carrying its name and
premium cells. -/
theorem outerMerge_covers_pr (ee : List EeRow) {pr : List PrincipalRow}
    {p : PrincipalRow} (hp : p ∈ pr) :
    ∃ m ∈ outerMerge ee pr, m.firstName = p.firstName ∧ m.lastName = p.lastName ∧
      m.principalPremium = p.principalPremium := by
  by_cases hx : ∃ e ∈ ee, keyMatches e p = true
  · rcases hx with ⟨e, he, hk⟩
    have hkey : e.firstName = p.firstName ∧ e.lastName = p.lastName := by
      simpa [keyMatches] using hk
    refine ⟨⟨e.firstName, e.lastName, e.totalPremium, p.principalPremium⟩, ?_,
      hkey.1, hkey.2, rfl⟩
    unfold outerMerge
    refine List.mem_append_left _ (List.mem_flatMap.2 ⟨e, he, ?_⟩)
    have hpm : p ∈ pr.filter (keyMatches e) := List.mem_filter.2 ⟨hp, hk⟩
    rcases hms : pr.filter (keyMatches e) with - | ⟨q, qs⟩
    · rw [hms] at hpm
      cases hpm
    · rw [hms] at hpm
      simpa [hms] using List.mem_map.2 ⟨p, hpm, rfl⟩
  · push_neg at hx
    refine ⟨⟨p.firstName, p.lastName, none, p.principalPremium⟩, ?_, rfl, rfl, rfl⟩
    unfold outerMerge
    refine List.mem_append_right _ (List.mem_map.2 ⟨p, List.mem_filter.2 ⟨hp, ?_⟩, rfl⟩)
    simp only [List.all_eq_true, Bool.not_eq_eq_eq_not, Bool.not_true]
    intro e he
    simpa using hx e he

/-- C3 counterexample: one EE record against two Principal records sharing its
(first, last) key: the outer merge emits two output rows and both carry the
single EE record's premium, so that record appears in two rows, not exactly
one. -/
theorem totality_counterexample :
    ((compare_files [⟨some "JANE", some "DOE", some 100⟩]
        [⟨some "JANE", some "DOE", some 100⟩, ⟨some "JANE", some "DOE", some 200⟩]).map
      fun r => (r.totalPremium, r.principalPremium)) =
      [(some 100, some 100), (some 100, some 200)] ∧
    ((compare_files [⟨some "JANE", some "DOE", some 100⟩]
        [⟨some "JANE", some "DOE", some 100⟩, ⟨some "JANE", some "DOE", some 200⟩]).countP
      fun r => r.totalPremium ≠ none) = 2 := by
  constructor <;> decide

/-- C3 amended: no record is silently lost: every record from both sources
appears in at least one output row (a row with no name in either field is
merged like any other, not dropped); but when several records share the same
(first name, last name) key across the two tables the outer merge emits one
row per matching pair, so a record can appear in more than one output row. -/
theorem totality_amended (ee : List EeRow) (pr : List PrincipalRow) :
    (∀ e ∈ ee, ∃ r ∈ compare_files ee pr, r.firstName = e.firstName ∧
      r.lastName = e.lastName ∧ r.totalPremium = e.totalPremium) ∧
    (∀ p ∈ pr, ∃ r ∈ compare_files ee pr, r.firstName = p.firstName ∧
      r.lastName = p.lastName ∧ r.principalPremium = p.principalPremium) := by
  constructor
  · intro e he
    obtain ⟨m, hm, h1, h2, h3⟩ := outerMerge_covers_ee pr he
    exact ⟨_, List.mem_map.2 ⟨m, hm, rfl⟩, h1, h2, h3⟩
  · intro p hp
    obtain ⟨m, hm, h1, h2, h3⟩ := outerMerge_covers_pr ee hp
    exact ⟨_, List.mem_map.2 ⟨m, hm, rfl⟩, h1, h2, h3⟩

/-- Witness for C3's amended theorem: the single EE record of a concrete run
is covered by an output row. -/
theorem totality_amended_witness :
    ∃ r ∈ compare_files [⟨none, some "A", some 1⟩] [],
      r.firstName = (⟨none, some "A", some 1⟩ : EeRow).firstName ∧
      r.lastName = (⟨none, some "A", some 1⟩ : EeRow).lastName ∧
      r.totalPremium = (⟨none, some "A", some 1⟩ : EeRow).totalPremium :=
  (totality_amended [⟨none, some "A", some 1⟩] []).1 _ (by decide)

/-- C4: the identifier assigner is a pure function of the identity fields
only: every output row's unique id is computed from its name cells alone, so
two rows with the same first and last name cells — whatever their premiums,
their position, or the run that produced them — carry the same id; an id, when
present, has exactly 8 characters; a record with an absent first or last name
receives no identifier at all; and the main.py variant hashes the normalized
name, so equal normalized names give equal ids there as well. -/
theorem unique_id_purity :
    (∀ (ee : List EeRow) (pr : List PrincipalRow) (r : ResultRow),
      r ∈ compare_files ee pr → r.uniqueId = uniqueIdOf r.firstName r.lastName) ∧
    (∀ (ee ee2 : List EeRow) (pr pr2 : List PrincipalRow) (r r2 : ResultRow),
      r ∈ compare_files ee pr → r2 ∈ compare_files ee2 pr2 →
      r.firstName = r2.firstName → r.lastName = r2.lastName → r.uniqueId = r2.uniqueId) ∧
    (∀ f l : Option String, uniqueIdOf f l = none ↔ (f = none ∨ l = none)) ∧
    (∀ (f l : String) (s : String), uniqueIdOf (some f) (some l) = some s → s.length = 8) ∧
    (∀ s t : String, normalize_name s = normalize_name t →
      generate_unique_id (normalize_name s) = generate_unique_id (normalize_name t)) := by
  refine ⟨?_, ?_, ?_, ?_, ?_⟩
  · intro ee pr r hr
    exact (compare_files_row_spec hr).2.2
  · intro ee ee2 pr pr2 r r2 hr hr2 hf hl
    rw [(compare_files_row_spec hr).2.2, (compare_files_row_spec hr2).2.2, hf, hl]
  · intro f l
    cases f <;> cases l <;> simp [uniqueIdOf]
  · intro f l s hs
    have hse : s = String.mk ((sha256HexChars (f ++ l)).take 8) := by
      simpa [uniqueIdOf] using hs.symm
    subst hse
    show ((sha256HexChars (f ++ l)).take 8).length = 8
    rw [List.length_take, sha256HexChars_length]
    rfl
  · intro s t h
    rw [h]

set_option maxRecDepth 8192 in
/-- Witness for C4: the identifier of JANE DOE, computed by the embedded
sha256, has 8 characters. -/
theorem unique_id_purity_witness : ("1fab9722" : String).length = 8 :=
  unique_id_purity.2.2.2.1 "JANE" "DOE" "1fab9722" (by decide)

/-- C9: the pipeline is deterministic: compare_files and the fuzzy matching
loop are functions of their inputs alone, so running them twice on identical
input tables yields identical results — identical output rows in identical
order with identical identifiers for the merge-and-classify pipeline, and
the identical outcome (the same error, raised at the same iteration, on any
nonempty HR table) for the fuzzy loop. -/
theorem pipeline_deterministic :
    (∀ (ee ee2 : List EeRow) (pr pr2 : List PrincipalRow), ee = ee2 → pr = pr2 →
      compare_files ee pr = compare_files ee2 pr2) ∧
    (∀ (score : String → String → Nat) (threshold : Nat) (d1 d2 d3 d4 : List NameRow),
      d1 = d3 → d2 = d4 →
      fuzzyMatchPairs score threshold d1 d2 = fuzzyMatchPairs score threshold d3 d4) := by
  constructor
  · intro ee ee2 pr pr2 h1 h2
    rw [h1, h2]
  · intro score threshold d1 d2 d3 d4 h1 h2
    rw [h1, h2]

/-- Witness for C9: concrete runs repeated on equal inputs give equal
results, on the merge path and on the fuzzy path. -/
theorem pipeline_deterministic_witness :
    (compare_files [⟨none, none, some 1⟩] [⟨none, none, some 2⟩] =
      compare_files [⟨none, none, some 1⟩] [⟨none, none, some 2⟩]) ∧
    (fuzzyMatchPairs specSimilarity 85 [⟨"ANN", "LEE"⟩] [⟨"ANN", "LEE"⟩] =
      fuzzyMatchPairs specSimilarity 85 [⟨"ANN", "LEE"⟩] [⟨"ANN", "LEE"⟩]) :=
  ⟨pipeline_deterministic.1 _ _ _ _ rfl rfl,
   pipeline_deterministic.2 specSimilarity 85 _ _ _ _ rfl rfl⟩

/-- An error raised in an earlier iteration propagates through the remaining
iterations of the matching loop. -/
theorem fuzzyFold_error (score : String → String → Nat) (threshold : Nat)
    (df1 df2 : List NameRow) (l : List Nat) (e : String) :
    l.foldl (fuzzyStep score threshold df1 df2) (.error e) = .error e := by
  induction l with
  | nil => rfl
  | cons x xs ih => exact ih

/-- Every iteration the matching loop reaches raises: the unpack of the
extractOne result never succeeds, whatever the scorer and tables. -/
theorem fuzzyStep_raises (score : String → String → Nat) (threshold : Nat)
    (df1 df2 : List NameRow) (acc : Except String (List (Nat × Nat))) (i : Nat) :
    ∃ e, fuzzyStep score threshold df1 df2 acc i = .error e := by
  cases acc with
  | error e => exact ⟨e, rfl⟩
  | ok pairs =>
    unfold fuzzyStep
    cases extractOne score ((normalizedNames df1).getD i "") (normalizedNames df2).enum with
    | none => exact ⟨_, rfl⟩
    | some t => exact ⟨_, rfl⟩

/-- A fuzzy-matching run that completes did no iteration: the recorded match
list of any completed run is empty. -/
theorem fuzzy_loop_never_records (score : String → String → Nat) (threshold : Nat)
    (df1 df2 : List NameRow) (pairs : List (Nat × Nat))
    (h : fuzzyMatchPairs score threshold df1 df2 = .ok pairs) : pairs = [] := by
  unfold fuzzyMatchPairs at h
  cases hn : List.range (normalizedNames df1).length with
  | nil =>
    rw [hn] at h
    exact (Except.ok.inj h).symm
  | cons x xs =>
    rw [hn] at h
    obtain ⟨e, he⟩ := fuzzyStep_raises score threshold df1 df2 (.ok []) x
    rw [List.foldl_cons, he, fuzzyFold_error] at h
    cases h

/-- C5: contrary to the claim, the fuzzy matching loop never consumes any
carrier record: process.extractOne returns a (match, score, key) triple for
the pandas Series it is given, so the two-variable unpack at src/main.py
line 133 raises ValueError on the first iteration whenever the HR and
carrier tables are nonempty (and TypeError, from unpacking None, when the
carrier table is empty); the loop completes, with an empty match list, only
for an empty HR table. -/
theorem fuzzy_loop_raises :
    fuzzyMatchPairs specSimilarity 85 [⟨"ANN", "LEE"⟩, ⟨"ANN", "LEE"⟩] [⟨"ANN", "LEE"⟩] =
      .error "ValueError: too many values to unpack (expected 2)" ∧
    fuzzyMatchPairs specSimilarity 85 [⟨"ANN", "LEE"⟩] [] =
      .error "TypeError: cannot unpack non-iterable NoneType object" ∧
    fuzzyMatchPairs specSimilarity 85 [] [⟨"ANN", "LEE"⟩] = .ok [] :=
  ⟨rfl, rfl, rfl⟩

/-- C6 counterexample: the member name SMITH, with no first-name segment,
yields an absent (NaN) first name, not an empty string: the expand=True
split pads the missing column with a missing value. -/
theorem member_name_split_counterexample :
    clean_principal_file [⟨"DOE, JANE", some 10⟩, ⟨"SMITH", some 5⟩] =
      some [⟨some "DOE", some "JANE", some 10⟩, ⟨some "SMITH", none, some 5⟩] ∧
    (none : Option String) ≠ some "" := by
  constructor <;> decide

/-- C6 amended: the carrier normalizer splits each member-name cell on the
separator into a last-name and a first-name column; a member name with no
first-name segment yields an absent (null) first name rather than an empty
string or a failure — provided the widest split in the table has exactly two
parts, which is what the two-column assignment requires. -/
theorem member_name_split_amended (rows : List RawPrincipalRow)
    (out : List CleanPrincipalRow) (h : clean_principal_file rows = some out) :
    out.length = rows.length ∧
    (∀ i (hi : i < rows.length),
      out[i]? = some ⟨(splitMemberName (rows.get ⟨i, hi⟩).memberName)[0]?,
        (splitMemberName (rows.get ⟨i, hi⟩).memberName)[1]?,
        (rows.get ⟨i, hi⟩).totalPremium⟩) ∧
    (∀ i (hi : i < rows.length),
      (splitMemberName (rows.get ⟨i, hi⟩).memberName).length ≤ 1 →
      (out[i]?).map (fun r => r.firstName) = some none) := by
  unfold clean_principal_file at h
  split_ifs at h with hw
  obtain rfl := Option.some.inj h.symm
  refine ⟨by simp, ?_, ?_⟩
  · intro i hi
    simp [List.getElem?_map, List.getElem?_eq_getElem hi]
  · intro i hi hlen
    have hnone : (splitMemberName (rows.get ⟨i, hi⟩).memberName)[1]? = none :=
      List.getElem?_eq_none hlen
    simp [List.getElem?_map, List.getElem?_eq_getElem hi, hnone]
    exact hlen

/-- Witness for C6's amended theorem: in the concrete table the SMITH row is
emitted with an absent first name. -/
theorem member_name_split_amended_witness :
    (((some [⟨some "DOE", some "JANE", some 10⟩, ⟨some "SMITH", none, some 5⟩] :
        Option (List CleanPrincipalRow)).getD [])[1]?).map (fun r => r.firstName) =
      some none :=
  (member_name_split_amended [⟨"DOE, JANE", some 10⟩, ⟨"SMITH", some 5⟩] _
    (by rfl)).2.2 1 (by decide) (by decide)

/-- C7: when the itemized cost columns are present, the HR normalizer emits
for every row a Total Premium equal to the arithmetic sum of the dental,
vision and voluntary-life cells, a missing cell counting as zero in the
summation only; names and row count are preserved. -/
theorem eenav_total_premium (rows : List RawEenavRow) :
    (clean_eenav_file rows).length = rows.length ∧
    ∀ i (hi : i < rows.length),
      (clean_eenav_file rows)[i]? =
        some ⟨(rows.get ⟨i, hi⟩).lastName, (rows.get ⟨i, hi⟩).firstName,
          ((rows.get ⟨i, hi⟩).dentalCost.getD 0) + ((rows.get ⟨i, hi⟩).visionCost.getD 0) +
            ((rows.get ⟨i, hi⟩).volLifeCost.getD 0)⟩ := by
  refine ⟨by simp [clean_eenav_file], ?_⟩
  intro i hi
  simp [clean_eenav_file, List.getElem?_map, List.getElem?_eq_getElem hi, rowSumSkipNa_three]

/-- Witness for C7: a concrete row with a missing vision cost sums its
present dental and voluntary-life costs. -/
theorem eenav_total_premium_witness :
    (clean_eenav_file [⟨some "D", some "F", some 1, none, some 2⟩])[0]? =
      some ⟨some "D", some "F",
        ((some (1 : ℚ)).getD 0) + ((none : Option ℚ).getD 0) + ((some (2 : ℚ)).getD 0)⟩ :=
  (eenav_total_premium [⟨some "D", some "F", some 1, none, some 2⟩]).2 0 (by decide)

/-- C8: after trimming and uppercasing the column names, validation succeeds
exactly when every required column is present, and otherwise raises an error
naming the source file and exactly the required columns that are absent. -/
theorem validate_input_characterization (columns required : List String) (fileName : String) :
    (validate_input_file columns required fileName = .ok () ↔
      ∀ c ∈ required, c ∈ columns.map normalizeColumn) ∧
    (∀ fn missing, validate_input_file columns required fileName = .error (fn, missing) →
      fn = fileName ∧
      missing = required.filter (fun c => ! (columns.map normalizeColumn).contains c) ∧
      missing ≠ [] ∧
      ∀ c ∈ missing, c ∈ required ∧ c ∉ columns.map normalizeColumn) := by
  constructor
  · unfold validate_input_file
    by_cases hemp :
        (required.filter fun c => ! (columns.map normalizeColumn).contains c).isEmpty
    · rw [if_pos hemp]
      simp only [true_iff]
      intro c hc
      have := List.filter_eq_nil_iff.1 (List.isEmpty_iff.1 hemp) c hc
      simpa [List.contains, List.elem_iff] using this
    · rw [if_neg hemp]
      simp only [reduceCtorEq, false_iff]
      intro hall
      refine hemp (List.isEmpty_iff.2 (List.filter_eq_nil_iff.2 ?_))
      intro c hc
      simpa [List.contains, List.elem_iff] using hall c hc
  · intro fn missing h
    unfold validate_input_file at h
    by_cases hemp :
        (required.filter fun c => ! (columns.map normalizeColumn).contains c).isEmpty
    · rw [if_pos hemp] at h
      cases h
    · rw [if_neg hemp] at h
      obtain ⟨h1, h2⟩ := Prod.mk.injEq .. ▸ Except.error.inj h
      refine ⟨h1.symm, h2.symm, ?_, ?_⟩
      · rw [h2.symm]
        intro hnil
        exact hemp (List.isEmpty_iff.2 hnil)
      · intro c hc
        rw [h2.symm] at hc
        obtain ⟨hreq, hcon⟩ := List.mem_filter.1 hc
        refine ⟨hreq, ?_⟩
        simpa [List.contains, List.elem_iff] using hcon

/-- Witness for C8: a table offering only name columns is rejected with an
error naming the EE Nav file and exactly its missing TOTAL PREMIUM column. -/
theorem validate_input_characterization_witness :
    ("EE Nav File" : String) = "EE Nav File" ∧
    (["TOTAL PREMIUM"] : List String) =
      requiredEeColumns.filter
        (fun c => ! ((["first name ", " Last Name"].map normalizeColumn)).contains c) ∧
    (["TOTAL PREMIUM"] : List String) ≠ [] ∧
    ∀ c ∈ (["TOTAL PREMIUM"] : List String),
      c ∈ requiredEeColumns ∧ c ∉ ["first name ", " Last Name"].map normalizeColumn :=
  (validate_input_characterization ["first name ", " Last Name"] requiredEeColumns
    "EE Nav File").2 "EE Nav File" ["TOTAL PREMIUM"] (by rfl)
